import Mathlib

/-!
Shallow embedding of the valuation calculation engine of the
DSE-Value-Investors repository (backend/app/calculations/), together with
theorems settling the frozen claims about its specification.

Conventions of the embedding:
* Python floats are modelled as exact rationals (`ℚ`); nullable floats as
  `Option ℚ`.
* The only non-rational floating-point operation the calculators perform is
  `b ** (1 / n)` (the n-th root inside the CAGR formula and the square root
  inside the coefficient of variation).  It is abstracted as an explicit
  function parameter `rt : ℚ → ℤ → ℚ`, where `rt b n` stands for the float
  computation `b ** (1.0 / n)`.  Every theorem quantifies over `rt`, and
  concrete evaluations instantiate it with `rtExact`, which agrees with the
  exact real root (and hence with the float computation) at the arguments
  where those evaluations use it.
* Python code paths that raise are modelled with `Except String`.
* Python truthiness on numbers (`if v:`) is modelled as `v ≠ 0` resp.
  `v ≠ none ∧ v ≠ some 0`.
-/

namespace DSE

/-- Last element of `a :: l` (models Python's `xs[-1]` on a non-empty
list); written as plain structural recursion so that concrete evaluations
unfold by `simp`. -/
def lastD {α : Type _} (a : α) : List α → α
  | [] => a
  | b :: l => lastD b l

/-! ## big_five.py -/

namespace BigFive

/-- Payloads of the human-readable notes of `GrowthMetric`
(the Python source builds them with f-strings; the embedding keeps the
tag and the interpolated numbers). -/
inductive GrowthNote where
  | insufficientData
  | mostlyNegative (negative : ℕ) (total : ℕ)
  | fluctuating (positive : ℕ) (negative : ℕ)
deriving Repr, DecidableEq

/-- `GrowthMetric` dataclass of big_five.py. -/
structure GrowthMetric where
  name : String
  values : List (Option ℚ)
  years : ℕ
  cagr : ℚ
  cagr_pct : Option ℚ
  passes : Bool
  status : String
  note : Option GrowthNote := none
deriving Repr, DecidableEq

/-- Rendered form of `GrowthMetric.to_dict`.  `rnd` models Python's
`round(·, 2)` on floats. -/
structure GrowthMetricDict where
  name : String
  values : List (Option ℚ)
  years : ℕ
  cagr_pct : Option ℚ
  passes : Bool
  status : String
  note : Option GrowthNote
deriving Repr, DecidableEq

/-- `GrowthMetric.to_dict`.  The list comprehension is
`[round(v, 2) if v else None for v in self.values]`: a value that is `None`
*or zero* is rendered as `None` (Python truthiness), anything else is
rounded.  `cagr_pct` uses an explicit `is not None` test instead. -/
def GrowthMetric.to_dict (rnd : ℚ → ℚ) (m : GrowthMetric) : GrowthMetricDict :=
  { name := m.name
    values := m.values.map (fun v =>
      match v with
      | some x => if x ≠ 0 then some (rnd x) else none
      | none => none)
    years := m.years
    cagr_pct := match m.cagr_pct with
      | some c => some (rnd c)
      | none => none
    passes := m.passes
    status := m.status
    note := m.note }

/-- `BigFiveResult` dataclass. -/
structure BigFiveResult where
  revenue : GrowthMetric
  eps : GrowthMetric
  equity : GrowthMetric
  operating_cf : GrowthMetric
  free_cf : GrowthMetric
  score : ℕ
  total : ℕ
  passes : Bool
  grade : String
deriving Repr, DecidableEq

def STRONG_THRESHOLD : ℚ := 15/100
def PASS_THRESHOLD : ℚ := 10/100
def WEAK_THRESHOLD : ℚ := 5/100

/-- The `(index, value)` pairs of the strictly positive entries of a series,
as built by the comprehension `[(i, v, …) for i, v in enumerate(values) if v and v > 0]`
(`v and v > 0` keeps exactly the non-null values `> 0`). -/
def posPoints (values : List (Option ℚ)) : List (ℕ × ℚ) :=
  values.enum.filterMap (fun p =>
    match p.2 with
    | some x => if 0 < x then some (p.1, x) else none
    | none => none)

/-- `BigFiveCalculator.calculate_cagr`.  `years_list` is optional; it is used
only when it is non-empty (Python truthiness of a list) and of the same
length as `values`. -/
def calculate_cagr (rt : ℚ → ℤ → ℚ) (values : List (Option ℚ))
    (years_list : Option (List ℤ) := none) : ℚ :=
  if values.length < 2 then 0
  else
    let valid_data := posPoints values
    match valid_data with
    | [] => 0
    | [_] => 0
    | p :: q :: rest =>
      let first := p
      let last := lastD q rest
      let year_span : ℤ :=
        match years_list with
        | some ys =>
          if 0 < ys.length ∧ ys.length = values.length then
            ys.getD last.1 0 - ys.getD first.1 0
          else (last.1 : ℤ) - (first.1 : ℤ)
        | none => (last.1 : ℤ) - (first.1 : ℤ)
      if year_span ≤ 0 ∨ first.2 ≤ 0 then 0
      else rt (last.2 / first.2) year_span - 1

/-- Pattern tags returned by `_analyze_values`. -/
inductive Pattern where
  | no_data
  | negative
  | inconsistent
  | normal
deriving Repr, DecidableEq

/-- Result dictionary of `_analyze_values`. -/
structure Analysis where
  pattern : Pattern
  positive : ℕ
  negative : ℕ
  zero_null : ℕ
deriving Repr, DecidableEq

/-- `positive = sum(1 for v in values if v and v > 0)` of `_analyze_values`. -/
def positiveCount (values : List (Option ℚ)) : ℕ :=
  values.countP (fun v =>
    match v with | some x => decide (0 < x) | none => false)

/-- `negative = sum(1 for v in values if v and v < 0)` of `_analyze_values`. -/
def negativeCount (values : List (Option ℚ)) : ℕ :=
  values.countP (fun v =>
    match v with | some x => decide (x < 0) | none => false)

/-- `zero_null = sum(1 for v in values if not v or v == 0)` of
`_analyze_values`. -/
def zeroNullCount (values : List (Option ℚ)) : ℕ :=
  values.countP (fun v =>
    match v with | some x => decide (x = 0) | none => true)

/-- `BigFiveCalculator._analyze_values`. -/
def _analyze_values (values : List (Option ℚ)) : Analysis :=
  if values.length = 0 then
    { pattern := .no_data, positive := 0, negative := 0, zero_null := 0 }
  else
    let positive := positiveCount values
    let negative := negativeCount values
    let zero_null := zeroNullCount values
    let total_valid := positive + negative
    if total_valid = 0 then
      { pattern := .no_data, positive := 0, negative := 0,
        zero_null := values.length }
    else
      let neg_frac : ℚ := (negative : ℚ) / (total_valid : ℚ)
      if 7/10 ≤ neg_frac then
        { pattern := .negative, positive := positive, negative := negative,
          zero_null := zero_null }
      else if 3/10 ≤ neg_frac then
        { pattern := .inconsistent, positive := positive, negative := negative,
          zero_null := zero_null }
      else
        { pattern := .normal, positive := positive, negative := negative,
          zero_null := zero_null }

/-- `BigFiveCalculator._evaluate_growth`. -/
def _evaluate_growth (rt : ℚ → ℤ → ℚ) (name : String)
    (values : List (Option ℚ)) (years_list : Option (List ℤ) := none) :
    GrowthMetric :=
  let years := if 1 < values.length then values.length - 1 else 0
  let analysis := _analyze_values values
  match analysis.pattern with
  | .no_data =>
    { name := name, values := values, years := years, cagr := 0,
      cagr_pct := none, passes := false, status := "NO_DATA",
      note := some .insufficientData }
  | .negative =>
    { name := name, values := values, years := years, cagr := 0,
      cagr_pct := none, passes := false, status := "NEGATIVE",
      note := some (.mostlyNegative analysis.negative
        (analysis.positive + analysis.negative)) }
  | .inconsistent =>
    let cagr := calculate_cagr rt values years_list
    { name := name, values := values, years := years, cagr := cagr,
      cagr_pct := some (cagr * 100), passes := false, status := "INCONSISTENT",
      note := some (.fluctuating analysis.positive analysis.negative) }
  | .normal =>
    let cagr := calculate_cagr rt values years_list
    let statusPasses : String × Bool :=
      if STRONG_THRESHOLD ≤ cagr then ("STRONG", true)
      else if PASS_THRESHOLD ≤ cagr then ("PASS", true)
      else if WEAK_THRESHOLD ≤ cagr then ("WEAK", false)
      else ("FAIL", false)
    { name := name, values := values, years := years, cagr := cagr,
      cagr_pct := some (cagr * 100), passes := statusPasses.2,
      status := statusPasses.1 }

/-- `BigFiveCalculator.calculate`. -/
def calculate (rt : ℚ → ℤ → ℚ) (revenue_history eps_history equity_history
    operating_cf_history free_cf_history : List (Option ℚ))
    (years_list : Option (List ℤ) := none) : BigFiveResult :=
  let revenue := _evaluate_growth rt "Revenue" revenue_history years_list
  let eps := _evaluate_growth rt "EPS" eps_history years_list
  let equity := _evaluate_growth rt "Book Value" equity_history years_list
  let operating_cf :=
    _evaluate_growth rt "Operating Cash Flow" operating_cf_history years_list
  let free_cf :=
    _evaluate_growth rt "Free Cash Flow" free_cf_history years_list
  let metrics := [revenue, eps, equity, operating_cf, free_cf]
  let score := metrics.countP (fun m => m.passes)
  let grade :=
    if score = 5 then "A"
    else if score = 4 then "B"
    else if score = 3 then "C"
    else if score = 2 then "D"
    else "F"
  { revenue := revenue, eps := eps, equity := equity,
    operating_cf := operating_cf, free_cf := free_cf,
    score := score, total := 5, passes := decide (3 ≤ score), grade := grade }

end BigFive

/-! ## sticker_price.py -/

namespace StickerPrice

/-- `StickerPriceResult` dataclass.  Note: the dataclass has *no* `status`
and *no* `note` field. -/
structure StickerPriceResult where
  current_eps : ℚ
  eps_growth_rate : ℚ
  used_growth_rate : ℚ
  historical_pe : ℚ
  future_eps : ℚ
  future_pe : ℚ
  future_price : ℚ
  sticker_price : ℚ
  margin_of_safety : ℚ
  current_price : Option ℚ := none
  discount_to_sticker : Option ℚ := none
  discount_to_mos : Option ℚ := none
  recommendation : Option String := none
deriving Repr, DecidableEq

def MAX_GROWTH_RATE : ℚ := 15/100
def MIN_GROWTH_RATE : ℚ := 1/100
def DEFAULT_PE_MULTIPLE : ℚ := 2
def PROJECTION_YEARS : ℕ := 10
def REQUIRED_RETURN : ℚ := 15/100
def MOS_DISCOUNT : ℚ := 1/2

/-- `self.discount_factor = (1 + REQUIRED_RETURN) ** PROJECTION_YEARS`. -/
def discount_factor : ℚ := (1 + REQUIRED_RETURN) ^ PROJECTION_YEARS

/-- `StickerPriceCalculator.calculate_cagr` (the sticker-price variant: no
fiscal-year parameter; the exponent base is `len(valid_values) - 1`). -/
def calculate_cagr (rt : ℚ → ℤ → ℚ) (values : List ℚ) : ℚ :=
  if values.length < 2 then 0
  else
    let valid_values := values.filter (fun v => decide (0 < v))
    match valid_values with
    | [] => 0
    | [_] => 0
    | a :: b :: rest =>
      let start_value := a
      let end_value := lastD b rest
      let years : ℤ := ((a :: b :: rest).length : ℤ) - 1
      if start_value ≤ 0 ∨ end_value ≤ 0 ∨ years ≤ 0 then 0
      else rt (end_value / start_value) years - 1

/-- Step 1 of `calculate`: growth rate actually used
(`min` with the analyst estimate when present, then clamped to
`[MIN_GROWTH_RATE, MAX_GROWTH_RATE]`). -/
def usedGrowth (eps_growth_rate : ℚ) (analyst_growth_rate : Option ℚ) : ℚ :=
  let base_growth :=
    match analyst_growth_rate with
    | some a => min eps_growth_rate a
    | none => eps_growth_rate
  max MIN_GROWTH_RATE (min base_growth MAX_GROWTH_RATE)

/-- Step 3 of `calculate`: future P/E
(`min(growth_pe, historical_pe) if historical_pe > 0 else growth_pe`,
then clamped to `[5, 50]`). -/
def futurePE (used_growth_rate historical_pe : ℚ) : ℚ :=
  let growth_pe := used_growth_rate * 100 * DEFAULT_PE_MULTIPLE
  let fp0 := if 0 < historical_pe then min growth_pe historical_pe else growth_pe
  max 5 (min 50 fp0)

/-- `StickerPriceCalculator._get_recommendation`. -/
def _get_recommendation (current_price sticker_price mos : ℚ) : String :=
  if current_price < mos then "STRONG_BUY"
  else if current_price < sticker_price then "BUY"
  else if current_price < sticker_price * (125/100) then "HOLD"
  else "SELL"

/-- `StickerPriceCalculator.calculate`.  The comparison block runs under
`if current_price and current_price > 0` (so a price of `0`/`None` skips it);
inside it, `discount_to_sticker` divides by `sticker_price` with no zero
guard — Python raises `ZeroDivisionError` when `sticker_price == 0`, which
the embedding models as `Except.error`. -/
def calculate (current_eps eps_growth_rate historical_pe : ℚ)
    (current_price : Option ℚ := none) (analyst_growth_rate : Option ℚ := none) :
    Except String StickerPriceResult :=
  let used_growth_rate := usedGrowth eps_growth_rate analyst_growth_rate
  let future_eps := current_eps * (1 + used_growth_rate) ^ PROJECTION_YEARS
  let future_pe := futurePE used_growth_rate historical_pe
  let future_price := future_eps * future_pe
  let sticker_price := future_price / discount_factor
  let margin_of_safety := sticker_price * MOS_DISCOUNT
  let result : StickerPriceResult :=
    { current_eps := current_eps
      eps_growth_rate := eps_growth_rate
      used_growth_rate := used_growth_rate
      historical_pe := historical_pe
      future_eps := future_eps
      future_pe := future_pe
      future_price := future_price
      sticker_price := sticker_price
      margin_of_safety := margin_of_safety }
  match current_price with
  | some cp =>
    if 0 < cp then
      if sticker_price = 0 then
        Except.error "ZeroDivisionError: float division by zero"
      else
        Except.ok { result with
          current_price := some cp
          discount_to_sticker := some ((sticker_price - cp) / sticker_price * 100)
          discount_to_mos := some ((margin_of_safety - cp) / margin_of_safety * 100)
          recommendation := some (_get_recommendation cp sticker_price margin_of_safety) }
    else Except.ok result
  | none => Except.ok result

/-- `StickerPriceCalculator.calculate_from_financials`.  There is no
data-quality gate: the EPS CAGR (possibly the `0.0` fallback) and the most
recent EPS (possibly zero or negative) are fed straight into `calculate`. -/
def calculate_from_financials (rt : ℚ → ℤ → ℚ) (eps_history : List ℚ)
    (historical_pe : ℚ) (current_price : Option ℚ := none) :
    Except String StickerPriceResult :=
  let eps_growth_rate := calculate_cagr rt eps_history
  let current_eps :=
    match eps_history.getLast? with
    | some e => e
    | none => 0
  calculate current_eps eps_growth_rate historical_pe current_price none

end StickerPrice

/-! ## four_ms.py -/

namespace FourMs

/-- Tags of the human-readable notes the Four Ms evaluators append (the
Python source builds them with f-strings; the embedding keeps the tag and
the interpolated numbers). -/
inductive FourMsNote where
  | highlyStableRevenue
  | stableRevenue
  | moderateRevenueVolatility
  | significantRevenueVolatility
  | highlyVolatileRevenue
  | profitableEveryYear
  | profitableMostYears
  | inconsistentProfitability
  | frequentlyUnprofitable
  | highlyPredictableEarnings
  | stableEarningsPattern
  | volatileEarnings
  | highlyVolatileEarnings
  | limitedHistory (years : ℕ)
  | shortHistory (years : ℕ)
  | insufficientData
  | sectorTag (name : String)
  | excellentROE (avg : ℚ)
  | goodROE (avg : ℚ)
  | moderateROE (avg : ℚ)
  | belowAverageROE (avg : ℚ)
  | weakROE (avg : ℚ)
  | roeUnavailable
  | consistentROEDurable
  | roeConsistencyUnavailable
  | highGrossMargins
  | expandingGrossMargins
  | decliningGrossMargins
  | excellentOperatingEfficiency
  | consistentROECapitalAllocation
  | capitalAllocationHardToMeasure
  | veryLowDebt
  | conservativeDebt
  | moderateDebt
  | elevatedDebt
  | highDebtConcern
  | debtToEquityNA
  | fcfExceedsNetIncome
  | strongFCF
  | weakCashConversion
  | poorCashGeneration
  | priceBelowStickerExcellent (pct : ℚ)
  | belowMarginOfSafety
  | priceBelowStickerGood (pct : ℚ)
  | nearFairValue
  | slightlyOvervalued
  | significantlyOvervalued
  | ruleOneCompany
  | someRuleOneQualities
  | mayNotMeetCriteria
  | bigFiveFailedWarning (score : ℤ) (penalty : ℤ)
deriving Repr

/-- `MeaningScore` dataclass. -/
structure MeaningScore where
  revenue_stability : ℚ
  earnings_consistency : ℚ
  net_income_stability : ℚ
  data_quality : ℚ
  sector : Option String
  sector_note : Option String
  score : ℚ
  grade : String
  notes : List FourMsNote
deriving Repr

/-- `MoatScore` dataclass. -/
structure MoatScore where
  roe_avg : ℚ
  roe_consistent : Bool
  gross_margin_avg : ℚ
  gross_margin_trend : String
  operating_margin_avg : ℚ
  score : ℚ
  grade : String
  notes : List FourMsNote
  score_breakdown : List (String × ℚ)
deriving Repr

/-- `ManagementScore` dataclass (`fcf_to_ni` embeds the source's
FCF-to-net-income quality field). -/
structure ManagementScore where
  roe_above_15 : Bool
  debt_to_equity : ℚ
  debt_reasonable : Bool
  fcf_to_ni : ℚ
  score : ℚ
  grade : String
  notes : List FourMsNote
  score_breakdown : List (String × ℚ)
deriving Repr

/-- `MOSScore` dataclass. -/
structure MOSScore where
  current_price : ℚ
  sticker_price : ℚ
  margin_of_safety : ℚ
  discount_pct : ℚ
  score : ℚ
  grade : String
  recommendation : String
  notes : List FourMsNote
deriving Repr

/-- `FourMsResult` dataclass. -/
structure FourMsResult where
  meaning : MeaningScore
  moat : MoatScore
  management : ManagementScore
  mos : MOSScore
  overall_score : ℚ
  overall_grade : String
  recommendation : String
  summary : List FourMsNote
  big_five_score : ℤ
  big_five_penalty : ℤ
  big_five_warning : Bool
deriving Repr

/-- `_score_to_grade`. -/
def _score_to_grade (score : ℚ) : String :=
  if 85 ≤ score then "A"
  else if 70 ≤ score then "B"
  else if 55 ≤ score then "C"
  else if 40 ≤ score then "D"
  else "F"

/-- `FourMsEvaluator._calculate_average`: mean of the non-`None`,
non-zero values (`v is not None and v != 0`), `0.0` on an empty filter. -/
def _calculate_average (values : List (Option ℚ)) : ℚ :=
  let valid := values.filterMap (fun v =>
    match v with
    | some x => if x ≠ 0 then some x else none
    | none => none)
  if valid.length ≠ 0 then valid.sum / (valid.length : ℚ) else 0

/-- `FourMsEvaluator._calculate_cv` (coefficient of variation over the
strictly positive values; `rt variance 2` models `variance ** 0.5`). -/
def _calculate_cv (rt : ℚ → ℤ → ℚ) (values : List (Option ℚ)) : ℚ :=
  let valid := values.filterMap (fun v =>
    match v with
    | some x => if 0 < x then some x else none
    | none => none)
  if valid.length < 2 then 100
  else
    let mean := valid.sum / (valid.length : ℚ)
    if mean = 0 then 100
    else
      let variance := ((valid.map (fun x => (x - mean) ^ 2)).sum) / (valid.length : ℚ)
      let std := rt variance 2
      std / mean * 100

/-- `FourMsEvaluator._is_consistent`: at least 60% of the non-`None`
values meet the threshold (`false` below two values). -/
def _is_consistent (values : List (Option ℚ)) (threshold : ℚ) : Bool :=
  let valid := values.filterMap id
  if valid.length < 2 then false
  else
    let passing := valid.countP (fun v => decide (threshold ≤ v))
    decide ((valid.length : ℚ) * (6/10) ≤ (passing : ℚ))

/-- `FourMsEvaluator._get_trend`.  Python's `valid[-n//3:]` takes the last
`⌈n/3⌉` elements (`-n//3` floors the *negative* quotient), while
`valid[:n//3]` takes the first `⌊n/3⌋`. -/
def _get_trend (values : List (Option ℚ)) : String :=
  let valid := values.filterMap id
  if valid.length < 3 then "Stable"
  else
    let n := valid.length
    let first_third := if 3 ≤ n then valid.take (n / 3) else valid.take 1
    let last_third := if 3 ≤ n then valid.drop (n - (n + 2) / 3) else valid.drop (n - 1)
    let avg_first := if first_third.length ≠ 0 then first_third.sum / (first_third.length : ℚ) else 0
    let avg_last := if last_third.length ≠ 0 then last_third.sum / (last_third.length : ℚ) else 0
    if avg_first = 0 then "Stable"
    else
      let change_pct := (avg_last - avg_first) / |avg_first| * 100
      if 10 < change_pct then "Growing"
      else if change_pct < -10 then "Declining"
      else "Stable"

/-- `FourMsEvaluator._calculate_profitable_years_pct`. -/
def _calculate_profitable_years_pct (net_income_history : List (Option ℚ)) : ℚ :=
  let valid := net_income_history.filterMap id
  if valid.length = 0 then 0
  else ((valid.countP (fun v => decide (0 < v)) : ℚ) / (valid.length : ℚ)) * 100

/-- `FourMsEvaluator.evaluate_meaning`.  The sector lookup
(`get_sector_profile(symbol).display_name`, `get_sector_note(symbol)`) is a
fixed read-only table in sectors.py; it is abstracted here as the two
parameters `sector_name` and `sector_note` holding the lookup's result. -/
def evaluate_meaning (rt : ℚ → ℤ → ℚ) (sector_name sector_note : Option String)
    (revenue_history net_income_history : List (Option ℚ)) : MeaningScore :=
  let revenue_cv := _calculate_cv rt revenue_history
  let stability : ℚ × List FourMsNote :=
    if revenue_cv < 15 then (25, [.highlyStableRevenue])
    else if revenue_cv < 25 then (20, [.stableRevenue])
    else if revenue_cv < 40 then (15, [.moderateRevenueVolatility])
    else if revenue_cv < 60 then (10, [.significantRevenueVolatility])
    else (5, [.highlyVolatileRevenue])
  let revenue_stability := 100 - min 100 revenue_cv
  let earnings_pct := _calculate_profitable_years_pct net_income_history
  let earnings : ℚ × List FourMsNote :=
    if 100 ≤ earnings_pct then (25, [.profitableEveryYear])
    else if 80 ≤ earnings_pct then (20, [.profitableMostYears])
    else if 60 ≤ earnings_pct then (15, [])
    else if 40 ≤ earnings_pct then (10, [.inconsistentProfitability])
    else (5, [.frequentlyUnprofitable])
  let positive_ni := net_income_history.filterMap (fun v =>
    match v with
    | some x => if 0 < x then some x else none
    | none => none)
  let ni_cv := if positive_ni.length ≠ 0 then _calculate_cv rt (positive_ni.map some) else 100
  let ni_stability : ℚ × List FourMsNote :=
    if ni_cv < 20 then (25, [.highlyPredictableEarnings])
    else if ni_cv < 35 then (20, [.stableEarningsPattern])
    else if ni_cv < 50 then (15, [])
    else if ni_cv < 70 then (10, [.volatileEarnings])
    else (5, [.highlyVolatileEarnings])
  let net_income_stability := 100 - min 100 ni_cv
  let years_of_data := max
    (revenue_history.countP (fun v => v.isSome))
    (net_income_history.countP (fun v => v.isSome))
  let data : ℚ × List FourMsNote :=
    if 10 ≤ years_of_data then (25, [])
    else if 7 ≤ years_of_data then (20, [])
    else if 5 ≤ years_of_data then (15, [.limitedHistory years_of_data])
    else if 3 ≤ years_of_data then (10, [.shortHistory years_of_data])
    else (5, [.insufficientData])
  let data_quality : ℚ := (years_of_data : ℚ) / 10 * 100
  let sector_notes : List FourMsNote :=
    match sector_name with
    | some s => if s ≠ "" then [.sectorTag s] else []
    | none => []
  let total_score := stability.1 + earnings.1 + ni_stability.1 + data.1
  { revenue_stability := revenue_stability
    earnings_consistency := earnings_pct
    net_income_stability := net_income_stability
    data_quality := min 100 data_quality
    sector := sector_name
    sector_note := sector_note
    score := total_score
    grade := _score_to_grade total_score
    notes := stability.2 ++ earnings.2 ++ ni_stability.2 ++ data.2 ++ sector_notes }

/-- The in-range ROE filter shared by `evaluate_moat` and
`evaluate_management`:
`[r for r in roe_history if r is not None and -100 <= r <= 100]`. -/
def validRoe (roe_history : List (Option ℚ)) : List ℚ :=
  roe_history.filterMap (fun r =>
    match r with
    | some x => if -100 ≤ x ∧ x ≤ 100 then some x else none
    | none => none)

/-- `FourMsEvaluator.evaluate_moat`. -/
def evaluate_moat (rt : ℚ → ℤ → ℚ)
    (roe_history gross_margin_history operating_margin_history : List (Option ℚ)) :
    MoatScore :=
  let valid_roe := validRoe roe_history
  let has_negative_equity :=
    valid_roe.length < (roe_history.filterMap id).length ∨
      (0 < roe_history.length ∧ valid_roe.length = 0)
  let level : ℚ × ℚ × List FourMsNote :=
    if valid_roe.length ≠ 0 then
      let roe_avg := _calculate_average (valid_roe.map some)
      if 20 ≤ roe_avg then (roe_avg, 30, [.excellentROE roe_avg])
      else if 15 ≤ roe_avg then (roe_avg, 24, [.goodROE roe_avg])
      else if 10 ≤ roe_avg then (roe_avg, 18, [.moderateROE roe_avg])
      else if 5 ≤ roe_avg then (roe_avg, 12, [.belowAverageROE roe_avg])
      else (roe_avg, 6, [.weakROE roe_avg])
    else (0, 15, [.roeUnavailable])
  let roe_avg := level.1
  let roe_level_score := level.2.1
  let notes1 := level.2.2
  let cons : Bool × ℚ × List FourMsNote :=
    if valid_roe.length ≠ 0 ∧ 2 ≤ valid_roe.length then
      let roe_consistent := _is_consistent (valid_roe.map some) 15
      if roe_consistent then (true, 20, [.consistentROEDurable])
      else if _is_consistent (valid_roe.map some) 10 then (false, 12, [])
      else (false, 6, [])
    else
      (false, 10,
        if has_negative_equity ∧
            ¬ notes1.any (fun n =>
              match n with | .roeUnavailable => true | _ => false) = true then
          [.roeConsistencyUnavailable]
        else [])
  let roe_consistent := cons.1
  let roe_consistency_score := cons.2.1
  let gross_margin_avg := _calculate_average gross_margin_history
  let gmL : ℚ × List FourMsNote :=
    if 40 ≤ gross_margin_avg then (20, [.highGrossMargins])
    else if 30 ≤ gross_margin_avg then (15, [])
    else if 20 ≤ gross_margin_avg then (10, [])
    else if 10 ≤ gross_margin_avg then (6, [])
    else (3, [])
  let gross_margin_trend := _get_trend gross_margin_history
  let gmT : ℚ × List FourMsNote :=
    if gross_margin_trend = "Growing" then (15, [.expandingGrossMargins])
    else if gross_margin_trend = "Stable" then (10, [])
    else (5, [.decliningGrossMargins])
  let operating_margin_avg := _calculate_average operating_margin_history
  let om : ℚ × List FourMsNote :=
    if 25 ≤ operating_margin_avg then (15, [.excellentOperatingEfficiency])
    else if 15 ≤ operating_margin_avg then (12, [])
    else if 10 ≤ operating_margin_avg then (8, [])
    else if 5 ≤ operating_margin_avg then (5, [])
    else (2, [])
  let total_score := roe_level_score + roe_consistency_score + gmL.1 + gmT.1 + om.1
  { roe_avg := roe_avg
    roe_consistent := roe_consistent
    gross_margin_avg := gross_margin_avg
    gross_margin_trend := gross_margin_trend
    operating_margin_avg := operating_margin_avg
    score := total_score
    grade := _score_to_grade total_score
    notes := notes1 ++ cons.2.2 ++ gmL.2 ++ gmT.2 ++ om.2
    score_breakdown :=
      [("ROE Level", roe_level_score), ("ROE Consistency", roe_consistency_score),
       ("Gross Margin Level", gmL.1), ("Gross Margin Trend", gmT.1),
       ("Operating Margin", om.1)] }

/-- `FourMsEvaluator.evaluate_management`. -/
def evaluate_management (rt : ℚ → ℤ → ℚ)
    (roe_history debt_to_equity_history fcf_history net_income_history :
      List (Option ℚ)) : ManagementScore :=
  let valid_roe := validRoe roe_history
  let cons : Bool × ℚ × List FourMsNote :=
    if valid_roe.length ≠ 0 ∧ 2 ≤ valid_roe.length then
      let roe_above_15 := _is_consistent (valid_roe.map some) 15
      let roe_avg := _calculate_average (valid_roe.map some)
      if roe_above_15 then (true, 34, [.consistentROECapitalAllocation])
      else if _is_consistent (valid_roe.map some) 10 then (false, 24, [])
      else if 10 ≤ roe_avg then (false, 16, [])
      else (false, 8, [])
    else (false, 17, [.capitalAllocationHardToMeasure])
  let roe_above_15 := cons.1
  let roe_score := cons.2.1
  let valid_de := debt_to_equity_history.filterMap id
  let debt : ℚ × Bool × ℚ × List FourMsNote :=
    if valid_de.length ≠ 0 then
      let de_avg := _calculate_average (valid_de.map some)
      let debt_reasonable := decide (de_avg < 1/2)
      if de_avg < 3/10 then (de_avg, debt_reasonable, 33, [.veryLowDebt])
      else if de_avg < 1/2 then (de_avg, debt_reasonable, 26, [.conservativeDebt])
      else if de_avg < 1 then (de_avg, debt_reasonable, 18, [.moderateDebt])
      else if de_avg < 2 then (de_avg, debt_reasonable, 10, [.elevatedDebt])
      else (de_avg, debt_reasonable, 5, [.highDebtConcern])
    else (0, true, 20, [.debtToEquityNA])
  let de_avg := debt.1
  let debt_reasonable := debt.2.1
  let debt_score := debt.2.2.1
  let fcf_avg := _calculate_average fcf_history
  let ni_avg := _calculate_average net_income_history
  let fcf_ni := if 0 < ni_avg then (if ni_avg ≠ 0 then fcf_avg / ni_avg else 0) else 0
  let fcf : ℚ × List FourMsNote :=
    if 1 ≤ fcf_ni then (33, [.fcfExceedsNetIncome])
    else if 8/10 ≤ fcf_ni then (26, [.strongFCF])
    else if 1/2 ≤ fcf_ni then (18, [])
    else if 2/10 ≤ fcf_ni then (10, [.weakCashConversion])
    else (5, [.poorCashGeneration])
  let total_score := roe_score + debt_score + fcf.1
  { roe_above_15 := roe_above_15
    debt_to_equity := de_avg
    debt_reasonable := debt_reasonable
    fcf_to_ni := fcf_ni
    score := total_score
    grade := _score_to_grade total_score
    notes := cons.2.2 ++ debt.2.2.2 ++ fcf.2
    score_breakdown :=
      [("ROE Consistency", roe_score), ("Debt Management", debt_score),
       ("Cash Generation", fcf.1)] }

/-- `FourMsEvaluator.evaluate_mos`. -/
def evaluate_mos (current_price sticker_price : ℚ) : MOSScore :=
  let mos := sticker_price * (1/2)
  let discount_pct :=
    if 0 < sticker_price then (sticker_price - current_price) / sticker_price * 100
    else 0
  let res : ℚ × String × List FourMsNote :=
    if current_price < mos then
      (100, "STRONG_BUY",
       [.priceBelowStickerExcellent discount_pct, .belowMarginOfSafety])
    else if current_price < sticker_price then
      let discount_frac :=
        if mos < sticker_price then (sticker_price - current_price) / (sticker_price - mos)
        else 1/2
      (50 + discount_frac * 40, "BUY", [.priceBelowStickerGood discount_pct])
    else if current_price < sticker_price * (11/10) then (40, "HOLD", [.nearFairValue])
    else if current_price < sticker_price * (125/100) then (25, "HOLD", [.slightlyOvervalued])
    else (10, "SELL", [.significantlyOvervalued])
  { current_price := current_price
    sticker_price := sticker_price
    margin_of_safety := mos
    discount_pct := discount_pct
    score := res.1
    grade := _score_to_grade res.1
    recommendation := res.2.1
    notes := res.2.2 }

/-- `FourMsEvaluator.evaluate` (the sector lookup of `evaluate_meaning`
abstracted as in that definition). -/
def evaluate (rt : ℚ → ℤ → ℚ) (sector_name sector_note : Option String)
    (revenue_history net_income_history roe_history gross_margin_history
      operating_margin_history debt_to_equity_history fcf_history :
      List (Option ℚ))
    (current_price sticker_price : ℚ) (big_five_score : ℤ) : FourMsResult :=
  let meaning := evaluate_meaning rt sector_name sector_note revenue_history net_income_history
  let moat := evaluate_moat rt roe_history gross_margin_history operating_margin_history
  let management := evaluate_management rt roe_history debt_to_equity_history
    fcf_history net_income_history
  let mos := evaluate_mos current_price sticker_price
  let base_score := meaning.score * (20/100) + moat.score * (30/100) +
    management.score * (20/100) + mos.score * (30/100)
  let big_five_warning := decide (big_five_score < 3)
  let big_five_penalty : ℤ :=
    if big_five_score = 2 then 10
    else if big_five_score = 1 then 20
    else if big_five_score = 0 then 30
    else 0
  let overall_score := max 0 (base_score - (big_five_penalty : ℚ))
  let summary0 : List FourMsNote :=
    (if 70 ≤ overall_score then [.ruleOneCompany]
     else if 50 ≤ overall_score then [.someRuleOneQualities]
     else [.mayNotMeetCriteria])
    ++ (match meaning.notes.head? with | some n => [n] | none => [])
    ++ (match moat.notes.head? with | some n => [n] | none => [])
    ++ (match management.notes.head? with | some n => [n] | none => [])
    ++ (match mos.notes.head? with | some n => [n] | none => [])
  let recSummary : String × List FourMsNote :=
    if big_five_warning then
      (if mos.recommendation = "SELL" ∨ overall_score < 40 then "AVOID" else "HOLD",
       .bigFiveFailedWarning big_five_score big_five_penalty :: summary0)
    else if (mos.recommendation = "STRONG_BUY" ∨ mos.recommendation = "BUY") ∧
        60 ≤ overall_score then
      (mos.recommendation, summary0)
    else if mos.recommendation = "SELL" ∨ overall_score < 40 then ("AVOID", summary0)
    else ("HOLD", summary0)
  { meaning := meaning
    moat := moat
    management := management
    mos := mos
    overall_score := overall_score
    overall_grade := _score_to_grade overall_score
    recommendation := recSummary.1
    summary := recSummary.2
    big_five_score := big_five_score
    big_five_penalty := big_five_penalty
    big_five_warning := big_five_warning }

end FourMs

/-- Instantiation of the abstract root parameter used by concrete
evaluations: agrees with the exact real value of `b ** (1 / n)` whenever
that value is rational and matched below (a first power is the base itself;
`4 ** (1/2) = 2`, `9 ** (1/2) = 3` are exact in floating point too). -/
def rtExact : ℚ → ℤ → ℚ := fun b n =>
  if n = 1 then b
  else if n = 2 ∧ b = 4 then 2
  else if n = 2 ∧ b = 9 then 3
  else 0

/-! ## General lemmas about the embedding -/

theorem lastD_eq_getLast? {α : Type _} (a : α) (l : List α) :
    (a :: l).getLast? = some (lastD a l) := by
  induction l generalizing a with
  | nil => rfl
  | cons b l ih => simpa [lastD] using ih b

/-! ## Claim theorems -/

/-- Claim C9: every `BigFiveResult` produced by `BigFiveCalculator.calculate`
has `score` equal to the number of the five metrics whose `passes` flag is
true (hence `score ≤ 5`), `passes` true exactly when `score ≥ 3`, and the
grade mapping `5→A, 4→B, 3→C, 2→D, ≤1→F`. -/
theorem c9_big_five_score_invariants (rt : ℚ → ℤ → ℚ)
    (rh eh qh oh fh : List (Option ℚ)) (ys : Option (List ℤ)) :
    (BigFive.calculate rt rh eh qh oh fh ys).score =
        [(BigFive.calculate rt rh eh qh oh fh ys).revenue,
         (BigFive.calculate rt rh eh qh oh fh ys).eps,
         (BigFive.calculate rt rh eh qh oh fh ys).equity,
         (BigFive.calculate rt rh eh qh oh fh ys).operating_cf,
         (BigFive.calculate rt rh eh qh oh fh ys).free_cf].countP
          (fun m => m.passes)
      ∧ (BigFive.calculate rt rh eh qh oh fh ys).score ≤ 5
      ∧ ((BigFive.calculate rt rh eh qh oh fh ys).passes = true ↔
          3 ≤ (BigFive.calculate rt rh eh qh oh fh ys).score)
      ∧ (BigFive.calculate rt rh eh qh oh fh ys).grade =
          (if (BigFive.calculate rt rh eh qh oh fh ys).score = 5 then "A"
           else if (BigFive.calculate rt rh eh qh oh fh ys).score = 4 then "B"
           else if (BigFive.calculate rt rh eh qh oh fh ys).score = 3 then "C"
           else if (BigFive.calculate rt rh eh qh oh fh ys).score = 2 then "D"
           else "F") := by
  refine ⟨rfl, List.countP_le_length _, decide_eq_true_iff, rfl⟩

/-- Claim C10: a `current_price` of exactly `0` is indistinguishable from a
missing one in `StickerPriceCalculator.calculate`: the result is the same,
and its `current_price`, `discount_to_sticker`, `discount_to_mos` and
`recommendation` fields are all `None`. -/
theorem c10_zero_price_like_none (e g pe : ℚ) (a : Option ℚ) :
    StickerPrice.calculate e g pe (some 0) a = StickerPrice.calculate e g pe none a
    ∧ ∃ r, StickerPrice.calculate e g pe none a = Except.ok r
        ∧ r.current_price = none
        ∧ r.discount_to_sticker = none
        ∧ r.discount_to_mos = none
        ∧ r.recommendation = none := by
  constructor
  · simp [StickerPrice.calculate]
  · exact ⟨_, rfl, rfl, rfl, rfl, rfl⟩

/-- Claim C1 (code bug): `calculate_from_financials` has no data-quality
gate.  On the all-negative EPS history `[-1, -2, -3]` — which §4.1
classifies as NEGATIVE — it returns a fully numeric result: the CAGR
fallback `0.0` is clamped up to the 1% growth floor and a (negative)
numeric sticker price is produced.  `StickerPriceResult` has no `status`
field at all, so no `NOT_CALCULABLE` status can be carried. -/
theorem c1_no_quality_gate_negative_series :
    (BigFive._analyze_values [some (-1), some (-2), some (-3)]).pattern =
      BigFive.Pattern.negative
    ∧ (StickerPrice.calculate_from_financials rtExact [-1, -2, -3] 10
        none).toOption.map
        (fun r => (r.eps_growth_rate, r.used_growth_rate,
          decide (r.sticker_price < 0)))
      = some (0, 1/100, true) := by
  constructor
  · norm_num [BigFive._analyze_values, BigFive.positiveCount,
      BigFive.negativeCount, BigFive.zeroNullCount, List.countP_cons]
  · norm_num [StickerPrice.calculate_from_financials, StickerPrice.calculate,
      StickerPrice.calculate_cagr, StickerPrice.usedGrowth, StickerPrice.futurePE,
      StickerPrice.MIN_GROWTH_RATE, StickerPrice.MAX_GROWTH_RATE,
      StickerPrice.DEFAULT_PE_MULTIPLE, StickerPrice.PROJECTION_YEARS,
      StickerPrice.MOS_DISCOUNT, StickerPrice.discount_factor,
      StickerPrice.REQUIRED_RETURN, List.filter_cons, rtExact, Except.toOption]

/-- Claim C4 (code bug): the engine's exception behaviour is the opposite
of the claimed contract.  Malformed data *does* raise: an all-zero EPS
series with a positive live price reaches `discount_to_sticker`'s division
by a zero sticker price (`ZeroDivisionError`).  A genuine contract
violation does *not* raise: `FourMsEvaluator.evaluate` accepts the
out-of-range Big-Five score `7` and returns a normal result (penalty `0`,
no warning flag, recommendation computed as usual). -/
theorem c4_exception_contract_mismatch :
    StickerPrice.calculate_from_financials rtExact [0, 0] 10 (some 100) =
      Except.error "ZeroDivisionError: float division by zero"
    ∧ (FourMs.evaluate rtExact none none [] [] [] [] [] [] [] 0 0
        7).big_five_penalty = 0
    ∧ (FourMs.evaluate rtExact none none [] [] [] [] [] [] [] 0 0
        7).big_five_warning = false := by
  refine ⟨?_, rfl, rfl⟩
  norm_num [StickerPrice.calculate_from_financials, StickerPrice.calculate,
    StickerPrice.calculate_cagr, StickerPrice.usedGrowth, StickerPrice.futurePE,
    StickerPrice.MIN_GROWTH_RATE, StickerPrice.MAX_GROWTH_RATE,
    StickerPrice.DEFAULT_PE_MULTIPLE, StickerPrice.PROJECTION_YEARS,
    StickerPrice.MOS_DISCOUNT, StickerPrice.discount_factor,
    StickerPrice.REQUIRED_RETURN, List.filter_cons, rtExact]

/-- Characterisation of `_analyze_values`' pattern in terms of the
positive/negative counts. -/
theorem analyze_pattern_spec (values : List (Option ℚ)) :
    (BigFive._analyze_values values).pattern =
      (if BigFive.positiveCount values + BigFive.negativeCount values = 0 then
        BigFive.Pattern.no_data
      else if 7/10 ≤ (BigFive.negativeCount values : ℚ) /
          ((BigFive.positiveCount values + BigFive.negativeCount values : ℕ) : ℚ) then
        BigFive.Pattern.negative
      else if 3/10 ≤ (BigFive.negativeCount values : ℚ) /
          ((BigFive.positiveCount values + BigFive.negativeCount values : ℕ) : ℚ) then
        BigFive.Pattern.inconsistent
      else BigFive.Pattern.normal) := by
  unfold BigFive._analyze_values
  by_cases h0 : values.length = 0
  · obtain rfl : values = [] := List.length_eq_zero.mp h0
    simp [BigFive.positiveCount, BigFive.negativeCount]
  · simp only [if_neg h0]
    split_ifs <;> rfl

/-- Claim C5: classification of a value series by the Big Five growth
check.  With `pos`/`neg` the counts of strictly positive/negative values:
no nonzero value → NO_DATA; `neg/(pos+neg) ≥ 0.7` → NEGATIVE with
`passes = false` and `cagr_pct = None`; ratio in `[0.3, 0.7)` →
INCONSISTENT with the CAGR still computed but `passes` forced `false`;
otherwise the status follows the decimal-CAGR thresholds and `passes`
holds exactly for STRONG and PASS. -/
theorem c5_growth_status_classification (rt : ℚ → ℤ → ℚ) (name : String)
    (values : List (Option ℚ)) (ys : Option (List ℤ)) :
    (BigFive.positiveCount values + BigFive.negativeCount values = 0 →
      (BigFive._evaluate_growth rt name values ys).status = "NO_DATA"
      ∧ (BigFive._evaluate_growth rt name values ys).passes = false
      ∧ (BigFive._evaluate_growth rt name values ys).cagr_pct = none)
    ∧ (7/10 ≤ (BigFive.negativeCount values : ℚ) /
          ((BigFive.positiveCount values + BigFive.negativeCount values : ℕ) : ℚ) →
        BigFive.positiveCount values + BigFive.negativeCount values ≠ 0 →
      (BigFive._evaluate_growth rt name values ys).status = "NEGATIVE"
      ∧ (BigFive._evaluate_growth rt name values ys).passes = false
      ∧ (BigFive._evaluate_growth rt name values ys).cagr_pct = none)
    ∧ (3/10 ≤ (BigFive.negativeCount values : ℚ) /
          ((BigFive.positiveCount values + BigFive.negativeCount values : ℕ) : ℚ) →
        (BigFive.negativeCount values : ℚ) /
          ((BigFive.positiveCount values + BigFive.negativeCount values : ℕ) : ℚ) < 7/10 →
        BigFive.positiveCount values + BigFive.negativeCount values ≠ 0 →
      (BigFive._evaluate_growth rt name values ys).status = "INCONSISTENT"
      ∧ (BigFive._evaluate_growth rt name values ys).passes = false
      ∧ (BigFive._evaluate_growth rt name values ys).cagr =
          BigFive.calculate_cagr rt values ys
      ∧ (BigFive._evaluate_growth rt name values ys).cagr_pct =
          some (BigFive.calculate_cagr rt values ys * 100))
    ∧ ((BigFive.negativeCount values : ℚ) /
          ((BigFive.positiveCount values + BigFive.negativeCount values : ℕ) : ℚ) < 3/10 →
        BigFive.positiveCount values + BigFive.negativeCount values ≠ 0 →
      (BigFive._evaluate_growth rt name values ys).cagr =
          BigFive.calculate_cagr rt values ys
      ∧ (BigFive._evaluate_growth rt name values ys).status =
          (if 15/100 ≤ BigFive.calculate_cagr rt values ys then "STRONG"
           else if 10/100 ≤ BigFive.calculate_cagr rt values ys then "PASS"
           else if 5/100 ≤ BigFive.calculate_cagr rt values ys then "WEAK"
           else "FAIL")
      ∧ ((BigFive._evaluate_growth rt name values ys).passes = true ↔
          ((BigFive._evaluate_growth rt name values ys).status = "STRONG"
            ∨ (BigFive._evaluate_growth rt name values ys).status = "PASS"))) := by
  have hp := analyze_pattern_spec values
  refine ⟨?_, ?_, ?_, ?_⟩
  · intro h
    rw [if_pos h] at hp
    simp [BigFive._evaluate_growth, hp, BigFive.STRONG_THRESHOLD,
      BigFive.PASS_THRESHOLD, BigFive.WEAK_THRESHOLD]
  · intro h7 hn
    rw [if_neg hn, if_pos h7] at hp
    simp [BigFive._evaluate_growth, hp]
  · intro h3 h7 hn
    rw [if_neg hn, if_neg (not_le.mpr h7), if_pos h3] at hp
    simp [BigFive._evaluate_growth, hp]
  · intro h3 hn
    rw [if_neg hn, if_neg (not_le.mpr (h3.trans_le (by norm_num))),
      if_neg (not_le.mpr h3)] at hp
    simp only [BigFive._evaluate_growth, hp]
    refine ⟨by trivial, ?_, ?_⟩
    · simp [BigFive.STRONG_THRESHOLD, BigFive.PASS_THRESHOLD, BigFive.WEAK_THRESHOLD]
      split_ifs <;> rfl
    · split_ifs <;> simp

/-- Witness for C5 at the mixed series `[1, -1]` (negative share `1/2`):
INCONSISTENT, failing, with the CAGR still reported. -/
theorem c5_growth_status_classification_witness :
    (BigFive._evaluate_growth rtExact "EPS" [some 1, some (-1)] none).status =
        "INCONSISTENT"
    ∧ (BigFive._evaluate_growth rtExact "EPS" [some 1, some (-1)] none).passes = false
    ∧ (BigFive._evaluate_growth rtExact "EPS" [some 1, some (-1)] none).cagr =
        BigFive.calculate_cagr rtExact [some 1, some (-1)] none
    ∧ (BigFive._evaluate_growth rtExact "EPS" [some 1, some (-1)] none).cagr_pct =
        some (BigFive.calculate_cagr rtExact [some 1, some (-1)] none * 100) :=
  (c5_growth_status_classification rtExact "EPS" [some 1, some (-1)] none).2.2.1
    (by norm_num [BigFive.negativeCount, BigFive.positiveCount, List.countP_cons])
    (by norm_num [BigFive.negativeCount, BigFive.positiveCount, List.countP_cons])
    (by norm_num [BigFive.negativeCount, BigFive.positiveCount, List.countP_cons])

/-- Claim C7 counterexample: a zero observation is *not* rendered as `0`
by `GrowthMetric.to_dict` — Python's `round(v, 2) if v else None` treats
`0.0` as falsy, so the zero in `[0, 1, 4]` is rendered as `None`,
indistinguishable from a missing observation.  (`rnd := id` agrees with
`round(·, 2)` on every value rendered here.) -/
theorem c7_zero_rendered_as_null_cex :
    (BigFive.GrowthMetric.to_dict id
        (BigFive._evaluate_growth rtExact "EPS" [some 0, some 1, some 4] none)).values
      = [none, some 1, some 4]
    ∧ (none : Option ℚ) ≠ some 0 := by
  constructor
  · norm_num [BigFive.GrowthMetric.to_dict, BigFive._evaluate_growth,
      BigFive._analyze_values, BigFive.positiveCount, BigFive.negativeCount,
      BigFive.zeroNullCount, List.countP_cons, BigFive.calculate_cagr,
      BigFive.posPoints, List.enum, List.enumFrom, List.filterMap_cons, lastD,
      rtExact, BigFive.STRONG_THRESHOLD]
  · simp

/-- Claim C7 as amended: in `GrowthMetric.to_dict` a zero observation is
rendered as `None`, exactly like a missing one, while non-zero
observations keep their (rounded) value; `cagr_pct` is rendered `None`
precisely when the metric's status is NO_DATA or NEGATIVE. -/
theorem c7_to_dict_rendering (rt : ℚ → ℤ → ℚ) (rnd : ℚ → ℚ) (name : String)
    (values : List (Option ℚ)) (ys : Option (List ℤ)) :
    (∀ i : ℕ,
      (BigFive.GrowthMetric.to_dict rnd
          (BigFive._evaluate_growth rt name values ys)).values.get? i
        = ((BigFive._evaluate_growth rt name values ys).values.get? i).map
            (fun v =>
              match v with
              | some x => if x = 0 then none else some (rnd x)
              | none => none))
    ∧ ((BigFive.GrowthMetric.to_dict rnd
          (BigFive._evaluate_growth rt name values ys)).cagr_pct = none
        ↔ ((BigFive._evaluate_growth rt name values ys).status = "NO_DATA"
            ∨ (BigFive._evaluate_growth rt name values ys).status = "NEGATIVE")) := by
  constructor
  · intro i
    simp only [BigFive.GrowthMetric.to_dict, List.get?_map]
    cases (BigFive._evaluate_growth rt name values ys).values.get? i with
    | none => rfl
    | some v =>
      cases v with
      | none => rfl
      | some x =>
        by_cases hx : x = 0 <;> simp [hx]
  · cases h : (BigFive._analyze_values values).pattern with
    | no_data => simp [BigFive._evaluate_growth, BigFive.GrowthMetric.to_dict, h]
    | negative => simp [BigFive._evaluate_growth, BigFive.GrowthMetric.to_dict, h]
    | inconsistent => simp [BigFive._evaluate_growth, BigFive.GrowthMetric.to_dict, h]
    | normal =>
      simp only [BigFive._evaluate_growth, BigFive.GrowthMetric.to_dict, h]
      split_ifs <;> simp

/-- Claim C3: in every `FourMsEvaluator.evaluate` call the overall score is
`max 0` of the 20/30/20/30-weighted sub-scores minus the graduated Big-Five
penalty (`2→10, 1→20, 0→30, ≥3→0`), and whenever `big_five_score < 3` the
recommendation is capped to HOLD/AVOID — AVOID exactly when the MOS
sub-score says SELL or the penalized overall score is below 40 — never
BUY or STRONG_BUY. -/
theorem c3_penalty_and_recommendation_cap (rt : ℚ → ℤ → ℚ)
    (sector_name sector_note : Option String)
    (rh nh roh gmh omh deh fh : List (Option ℚ)) (cp sp : ℚ) (s : ℤ)
    (r : FourMs.FourMsResult)
    (hr : r = FourMs.evaluate rt sector_name sector_note rh nh roh gmh omh deh fh
        cp sp s) :
    ((r.big_five_penalty : ℚ) =
        (if s = 2 then 10 else if s = 1 then 20 else if s = 0 then 30 else 0)
      ∧ (3 ≤ s → r.big_five_penalty = 0)
      ∧ r.overall_score = max 0
          (r.meaning.score * (20/100) + r.moat.score * (30/100) +
           r.management.score * (20/100) + r.mos.score * (30/100) -
           (r.big_five_penalty : ℚ)))
    ∧ (s < 3 →
        (r.recommendation = "HOLD" ∨ r.recommendation = "AVOID")
        ∧ (r.recommendation = "AVOID" ↔
            (r.mos.recommendation = "SELL" ∨ r.overall_score < 40))
        ∧ r.recommendation ≠ "BUY" ∧ r.recommendation ≠ "STRONG_BUY") := by
  subst hr
  constructor
  · refine ⟨?_, ?_, ?_⟩
    · simp only [FourMs.evaluate]
      split_ifs <;> norm_num
    · intro h3
      simp only [FourMs.evaluate]
      rw [if_neg (by omega), if_neg (by omega), if_neg (by omega)]
    · rfl
  · intro hs
    have hw : decide (s < 3) = true := decide_eq_true hs
    simp only [FourMs.evaluate, hw, if_true]
    split_ifs <;> simp_all

/-- Witness for C3 at `big_five_score = 2` (penalty 10, capped
recommendation). -/
theorem c3_penalty_and_recommendation_cap_witness :
    ((FourMs.evaluate rtExact none none [] [] [] [] [] [] [] 0 0
        2).big_five_penalty : ℚ) =
      (if (2:ℤ) = 2 then 10 else if (2:ℤ) = 1 then 20 else if (2:ℤ) = 0 then 30 else 0)
    ∧ ((FourMs.evaluate rtExact none none [] [] [] [] [] [] [] 0 0
          2).recommendation = "HOLD"
        ∨ (FourMs.evaluate rtExact none none [] [] [] [] [] [] [] 0 0
            2).recommendation = "AVOID") :=
  ⟨(c3_penalty_and_recommendation_cap rtExact none none [] [] [] [] [] [] [] 0 0 2
      _ rfl).1.1,
   ((c3_penalty_and_recommendation_cap rtExact none none [] [] [] [] [] [] [] 0 0 2
      _ rfl).2 (by norm_num)).1⟩

/-- Claim C8: ROE observations outside `[-100, 100]` are excluded from the
ROE average and consistency check of both the Moat and the Management
scorer (appending such a sentinel changes none of the ROE-derived fields
or breakdown scores), and when no valid ROE observation remains the ROE
components get neutral mid-band scores — 15/30 and 10/20 in Moat, 17/34 in
Management — together with an explanatory note. -/
theorem c8_roe_sentinel_exclusion_and_neutral_scores (rt : ℚ → ℤ → ℚ)
    (roe gm om de fcf ni : List (Option ℚ)) (x : ℚ)
    (hx : x < -100 ∨ 100 < x) :
    ((FourMs.evaluate_moat rt (roe ++ [some x]) gm om).roe_avg =
        (FourMs.evaluate_moat rt roe gm om).roe_avg
      ∧ (FourMs.evaluate_moat rt (roe ++ [some x]) gm om).roe_consistent =
        (FourMs.evaluate_moat rt roe gm om).roe_consistent
      ∧ (FourMs.evaluate_moat rt (roe ++ [some x]) gm om).score_breakdown =
        (FourMs.evaluate_moat rt roe gm om).score_breakdown
      ∧ (FourMs.evaluate_management rt (roe ++ [some x]) de fcf ni).roe_above_15 =
        (FourMs.evaluate_management rt roe de fcf ni).roe_above_15
      ∧ (FourMs.evaluate_management rt (roe ++ [some x]) de fcf ni).score_breakdown =
        (FourMs.evaluate_management rt roe de fcf ni).score_breakdown)
    ∧ (FourMs.validRoe roe = [] →
        ("ROE Level", (15:ℚ)) ∈ (FourMs.evaluate_moat rt roe gm om).score_breakdown
        ∧ ("ROE Consistency", (10:ℚ)) ∈
            (FourMs.evaluate_moat rt roe gm om).score_breakdown
        ∧ FourMs.FourMsNote.roeUnavailable ∈ (FourMs.evaluate_moat rt roe gm om).notes
        ∧ ("ROE Consistency", (17:ℚ)) ∈
            (FourMs.evaluate_management rt roe de fcf ni).score_breakdown
        ∧ FourMs.FourMsNote.capitalAllocationHardToMeasure ∈
            (FourMs.evaluate_management rt roe de fcf ni).notes) := by
  have hrange : ¬(-100 ≤ x ∧ x ≤ 100) := by
    rcases hx with h | h <;> intro hc <;> rcases hc with ⟨h1, h2⟩ <;> linarith
  have hv : FourMs.validRoe (roe ++ [some x]) = FourMs.validRoe roe := by
    simp [FourMs.validRoe, List.filterMap_append, hrange]
  constructor
  · simp only [FourMs.evaluate_moat, FourMs.evaluate_management, hv]
    by_cases h1 : (FourMs.validRoe roe).length ≠ 0 <;>
      by_cases h2 : 2 ≤ (FourMs.validRoe roe).length <;>
        simp [h1, h2]
  · intro h
    constructor
    · simp [FourMs.evaluate_moat, h]
    refine ⟨?_, ?_, ?_, ?_⟩ <;>
      simp [FourMs.evaluate_moat, FourMs.evaluate_management, h]

theorem exists_cons_cons_of_two_le {α : Type _} {l : List α} (h : 2 ≤ l.length) :
    ∃ a b t, l = a :: b :: t := by
  cases l with
  | nil => simp at h
  | cons a l2 =>
    cases l2 with
    | nil => simp at h
    | cons b t => exact ⟨a, b, t, rfl⟩

theorem posPoints_length_le (values : List (Option ℚ)) :
    (BigFive.posPoints values).length ≤ values.length := by
  calc (BigFive.posPoints values).length ≤ values.enum.length :=
        List.length_filterMap_le _ _
    _ = values.length := List.enum_length

theorem lastD_mem {α : Type _} (a : α) (l : List α) : lastD a l ∈ a :: l := by
  induction l generalizing a with
  | nil => simp [lastD]
  | cons b t ih =>
    rw [lastD]
    exact List.mem_cons_of_mem a (ih b)

theorem posPoints_pos {values : List (Option ℚ)} {p : ℕ × ℚ}
    (h : p ∈ BigFive.posPoints values) : 0 < p.2 := by
  simp only [BigFive.posPoints, List.mem_filterMap] at h
  obtain ⟨⟨i, v⟩, _, hmatch⟩ := h
  cases v with
  | none => simp at hmatch
  | some x =>
    by_cases hx : 0 < x
    · simp only [hx, if_true] at hmatch
      rw [← Option.some.inj hmatch]
      exact hx
    · simp [hx] at hmatch

theorem filter_pos_head_pos {values : List ℚ} {v : ℚ}
    (h : v ∈ values.filter (fun w => decide (0 < w))) : 0 < v := by
  have := List.of_mem_filter h
  simpa using this

/-- Claim C2 counterexample: the sticker-price `calculate_cagr` does not
use the array-index gap between the surviving positive points.  For
`[1, -1, 4]` the surviving points sit at indices `0` and `2`, so the
claimed formula gives `(4/1) ** (1/2) - 1 = 1.0`, but the code divides by
`len(valid_values) - 1 = 1` and returns `(4/1) ** (1/1) - 1 = 3.0`
(`rtExact` agrees with the exact float value of both roots). -/
theorem c2_sticker_index_gap_cex :
    StickerPrice.calculate_cagr rtExact [1, -1, 4] = 3
    ∧ rtExact ((4:ℚ)/1) ((2:ℤ) - 0) - 1 = 1
    ∧ (3:ℚ) ≠ 1 := by
  refine ⟨?_, by norm_num [rtExact], by norm_num⟩
  norm_num [StickerPrice.calculate_cagr, rtExact, lastD, List.filter_cons]

/-- Claim C2 as amended: after filtering to strictly positive values, the
Big-Five `calculate_cagr` uses the fiscal-year gap between the first and
last surviving points when a fiscal-year list of matching length is
supplied and the array-index gap otherwise, computing
`rt(end/start, span) - 1`, and returns `0.0` when fewer than two positive
points survive or the span is not positive.  The sticker-price
`calculate_cagr`, however, takes no fiscal years at all and uses
`len(valid_values) - 1` — the *count* of surviving points minus one, not
the index gap — as its time base (returning `0.0` below two survivors). -/
theorem c2_cagr_time_base (rt : ℚ → ℤ → ℚ) :
    (∀ (values : List (Option ℚ)) (ys : List ℤ) (i0 i1 : ℕ) (v0 v1 : ℚ),
      ys.length = values.length →
      (BigFive.posPoints values).head? = some (i0, v0) →
      (BigFive.posPoints values).getLast? = some (i1, v1) →
      2 ≤ (BigFive.posPoints values).length →
      0 < ys.getD i1 0 - ys.getD i0 0 →
      BigFive.calculate_cagr rt values (some ys) =
        rt (v1 / v0) (ys.getD i1 0 - ys.getD i0 0) - 1)
    ∧ (∀ (values : List (Option ℚ)) (i0 i1 : ℕ) (v0 v1 : ℚ),
      (BigFive.posPoints values).head? = some (i0, v0) →
      (BigFive.posPoints values).getLast? = some (i1, v1) →
      2 ≤ (BigFive.posPoints values).length →
      0 < (i1 : ℤ) - (i0 : ℤ) →
      BigFive.calculate_cagr rt values none =
        rt (v1 / v0) ((i1 : ℤ) - (i0 : ℤ)) - 1)
    ∧ (∀ (values : List (Option ℚ)) (ys : Option (List ℤ)),
      (BigFive.posPoints values).length < 2 →
      BigFive.calculate_cagr rt values ys = 0)
    ∧ (∀ (values : List (Option ℚ)) (ys : List ℤ) (i0 i1 : ℕ) (v0 v1 : ℚ),
      ys.length = values.length →
      (BigFive.posPoints values).head? = some (i0, v0) →
      (BigFive.posPoints values).getLast? = some (i1, v1) →
      2 ≤ (BigFive.posPoints values).length →
      ys.getD i1 0 - ys.getD i0 0 ≤ 0 →
      BigFive.calculate_cagr rt values (some ys) = 0)
    ∧ (∀ (values : List ℚ) (v0 v1 : ℚ),
      (values.filter (fun w => decide (0 < w))).head? = some v0 →
      (values.filter (fun w => decide (0 < w))).getLast? = some v1 →
      2 ≤ (values.filter (fun w => decide (0 < w))).length →
      StickerPrice.calculate_cagr rt values =
        rt (v1 / v0) (((values.filter (fun w => decide (0 < w))).length : ℤ) - 1) - 1)
    ∧ (∀ (values : List ℚ),
      (values.filter (fun w => decide (0 < w))).length < 2 →
      StickerPrice.calculate_cagr rt values = 0) := by
  refine ⟨?_, ?_, ?_, ?_, ?_, ?_⟩
  · intro values ys i0 i1 v0 v1 hlen hhead hlast hlen2 hspan
    obtain ⟨p, q, t, hl⟩ := exists_cons_cons_of_two_le hlen2
    rw [hl] at hhead hlast
    have hp0 : p = (i0, v0) := by simpa using hhead
    rw [lastD_eq_getLast?] at hlast
    have hl1 : lastD q t = (i1, v1) := by
      have h2 : lastD p (q :: t) = lastD q t := rfl
      rw [h2] at hlast
      simpa using hlast
    have hvpos : 0 < v0 := by
      have hmem : p ∈ BigFive.posPoints values := by
        rw [hl]; exact List.mem_cons_self p (q :: t)
      rw [hp0] at hmem
      exact posPoints_pos hmem
    have hvlen : ¬ values.length < 2 := by
      have hle := posPoints_length_le values
      omega
    have hys : 0 < ys.length := by
      rw [hlen]; omega
    simp only [BigFive.calculate_cagr, hl, if_neg hvlen, hp0, hl1,
      if_pos (And.intro hys hlen)]
    rw [if_neg]
    push_neg
    exact ⟨hspan, hvpos⟩
  · intro values i0 i1 v0 v1 hhead hlast hlen2 hspan
    obtain ⟨p, q, t, hl⟩ := exists_cons_cons_of_two_le hlen2
    rw [hl] at hhead hlast
    have hp0 : p = (i0, v0) := by simpa using hhead
    rw [lastD_eq_getLast?] at hlast
    have hl1 : lastD q t = (i1, v1) := by
      have h2 : lastD p (q :: t) = lastD q t := rfl
      rw [h2] at hlast
      simpa using hlast
    have hvpos : 0 < v0 := by
      have hmem : p ∈ BigFive.posPoints values := by
        rw [hl]; exact List.mem_cons_self p (q :: t)
      rw [hp0] at hmem
      exact posPoints_pos hmem
    have hvlen : ¬ values.length < 2 := by
      have hle := posPoints_length_le values
      omega
    simp only [BigFive.calculate_cagr, hl, if_neg hvlen, hp0, hl1]
    rw [if_neg]
    push_neg
    exact ⟨hspan, hvpos⟩
  · intro values ys hshort
    by_cases hvlen : values.length < 2
    · simp only [BigFive.calculate_cagr, if_pos hvlen]
    · rcases hl : BigFive.posPoints values with _ | ⟨a, _ | ⟨b, t⟩⟩
      · simp only [BigFive.calculate_cagr, hl, if_neg hvlen]
      · simp only [BigFive.calculate_cagr, hl, if_neg hvlen]
      · rw [hl] at hshort
        simp only [List.length_cons] at hshort
        omega
  · intro values ys i0 i1 v0 v1 hlen hhead hlast hlen2 hspan
    obtain ⟨p, q, t, hl⟩ := exists_cons_cons_of_two_le hlen2
    rw [hl] at hhead hlast
    have hp0 : p = (i0, v0) := by simpa using hhead
    rw [lastD_eq_getLast?] at hlast
    have hl1 : lastD q t = (i1, v1) := by
      have h2 : lastD p (q :: t) = lastD q t := rfl
      rw [h2] at hlast
      simpa using hlast
    have hvlen : ¬ values.length < 2 := by
      have hle := posPoints_length_le values
      omega
    have hys : 0 < ys.length := by
      rw [hlen]; omega
    simp only [BigFive.calculate_cagr, hl, if_neg hvlen, hp0, hl1,
      if_pos (And.intro hys hlen)]
    rw [if_pos (Or.inl hspan)]
  · intro values v0 v1 hhead hlast hlen2
    obtain ⟨a, b, t, hl⟩ := exists_cons_cons_of_two_le hlen2
    rw [hl] at hhead hlast
    have ha : a = v0 := by simpa using hhead
    rw [lastD_eq_getLast?] at hlast
    have hb : lastD b t = v1 := by
      have h2 : lastD a (b :: t) = lastD b t := rfl
      rw [h2] at hlast
      simpa using hlast
    have hapos : 0 < v0 := by
      have hmem : a ∈ values.filter (fun w => decide (0 < w)) := by
        rw [hl]; exact List.mem_cons_self a (b :: t)
      rw [ha] at hmem
      exact filter_pos_head_pos hmem
    have hbpos : 0 < v1 := by
      have hmem : lastD b t ∈ values.filter (fun w => decide (0 < w)) := by
        rw [hl]
        exact List.mem_cons_of_mem a (lastD_mem b t)
      rw [hb] at hmem
      exact filter_pos_head_pos hmem
    have hvlen : ¬ values.length < 2 := by
      have hle : (values.filter (fun w => decide (0 < w))).length ≤ values.length :=
        List.length_filter_le _ _
      omega
    simp only [StickerPrice.calculate_cagr, hl, if_neg hvlen, ha, hb]
    rw [if_neg]
    push_neg
    refine ⟨hapos, hbpos, ?_⟩
    simp only [List.length_cons]
    push_cast
    omega
  · intro values hshort
    by_cases hvlen : values.length < 2
    · simp only [StickerPrice.calculate_cagr, if_pos hvlen]
    · rcases hl : values.filter (fun w => decide (0 < w)) with _ | ⟨a, _ | ⟨b, t⟩⟩
      · simp only [StickerPrice.calculate_cagr, hl, if_neg hvlen]
      · simp only [StickerPrice.calculate_cagr, hl, if_neg hvlen]
      · rw [hl] at hshort
        simp only [List.length_cons] at hshort
        omega

/-- Witness for C2: fiscal-year mode on `[1, null, 4]` with years
`[2018, 2020, 2023]` (span 5), the sticker-price variant on `[1, -1, 4]`
(count-based span), and the single-positive-point fallback. -/
theorem c2_cagr_time_base_witness :
    BigFive.calculate_cagr rtExact [some 1, none, some 4] (some [2018, 2020, 2023]) =
      rtExact ((4:ℚ) / 1)
        (([2018, 2020, 2023] : List ℤ).getD 2 0 - ([2018, 2020, 2023] : List ℤ).getD 0 0) - 1
    ∧ StickerPrice.calculate_cagr rtExact [1, -1, 4] =
      rtExact ((4:ℚ) / 1)
        (((([1, -1, 4] : List ℚ).filter (fun w => decide (0 < w))).length : ℤ) - 1) - 1
    ∧ BigFive.calculate_cagr rtExact [some 1] none = 0 :=
  ⟨(c2_cagr_time_base rtExact).1 [some 1, none, some 4] [2018, 2020, 2023] 0 2 1 4
      rfl
      (by norm_num [BigFive.posPoints, List.enum, List.enumFrom, List.filterMap_cons])
      (by norm_num [BigFive.posPoints, List.enum, List.enumFrom, List.filterMap_cons,
        List.getLast?, List.getLast])
      (by norm_num [BigFive.posPoints, List.enum, List.enumFrom, List.filterMap_cons])
      (by decide),
   (c2_cagr_time_base rtExact).2.2.2.2.1 [1, -1, 4] 1 4
      (by norm_num [List.filter_cons])
      (by norm_num [List.filter_cons, List.getLast?, List.getLast])
      (by norm_num [List.filter_cons]),
   (c2_cagr_time_base rtExact).2.2.1 [some 1] none
      (by norm_num [BigFive.posPoints, List.enum, List.enumFrom, List.filterMap_cons])⟩

/-- Witness for C8 at the out-of-range ROE `200` appended to an empty
history (no valid ROE remains: neutral moat and management ROE scores). -/
theorem c8_roe_sentinel_witness :
    (FourMs.evaluate_moat rtExact ([] ++ [some 200]) [] []).roe_avg =
      (FourMs.evaluate_moat rtExact [] [] []).roe_avg
    ∧ ("ROE Level", (15:ℚ)) ∈ (FourMs.evaluate_moat rtExact [] [] []).score_breakdown
    ∧ ("ROE Consistency", (10:ℚ)) ∈ (FourMs.evaluate_moat rtExact [] [] []).score_breakdown
    ∧ ("ROE Consistency", (17:ℚ)) ∈
        (FourMs.evaluate_management rtExact [] [] [] []).score_breakdown :=
  ⟨(c8_roe_sentinel_exclusion_and_neutral_scores rtExact [] [] [] [] [] [] 200
      (Or.inr (by norm_num))).1.1,
   ((c8_roe_sentinel_exclusion_and_neutral_scores rtExact [] [] [] [] [] [] 200
      (Or.inr (by norm_num))).2 rfl).1,
   ((c8_roe_sentinel_exclusion_and_neutral_scores rtExact [] [] [] [] [] [] 200
      (Or.inr (by norm_num))).2 rfl).2.1,
   ((c8_roe_sentinel_exclusion_and_neutral_scores rtExact [] [] [] [] [] [] 200
      (Or.inr (by norm_num))).2 rfl).2.2.2.1⟩

theorem usedGrowth_bounds (g : ℚ) (a : Option ℚ) :
    StickerPrice.MIN_GROWTH_RATE ≤ StickerPrice.usedGrowth g a
    ∧ StickerPrice.usedGrowth g a ≤ StickerPrice.MAX_GROWTH_RATE := by
  simp only [StickerPrice.usedGrowth]
  exact ⟨le_max_left _ _,
    max_le (by norm_num [StickerPrice.MIN_GROWTH_RATE, StickerPrice.MAX_GROWTH_RATE])
      (min_le_right _ _)⟩

theorem futurePE_bounds (u pe : ℚ) :
    5 ≤ StickerPrice.futurePE u pe ∧ StickerPrice.futurePE u pe ≤ 50 := by
  simp only [StickerPrice.futurePE]
  exact ⟨le_max_left _ _, max_le (by norm_num) (min_le_left _ _)⟩

theorem futurePE_eq_of_below_cap {u pe : ℚ} (h5 : 5 ≤ pe)
    (hcap : pe < u * 100 * StickerPrice.DEFAULT_PE_MULTIPLE)
    (hu : u ≤ StickerPrice.MAX_GROWTH_RATE) :
    StickerPrice.futurePE u pe = pe := by
  have hpe0 : (0:ℚ) < pe := by linarith
  have hle50 : pe ≤ 50 := by
    have hc : u * 100 * StickerPrice.DEFAULT_PE_MULTIPLE ≤ 30 := by
      norm_num [StickerPrice.DEFAULT_PE_MULTIPLE, StickerPrice.MAX_GROWTH_RATE] at hu ⊢
      linarith
    linarith
  simp only [StickerPrice.futurePE, if_pos hpe0]
  rw [min_eq_right hcap.le, min_eq_right hle50, max_eq_right h5]

theorem calculate_ok_fields (e g pe : ℚ) (cp a : Option ℚ)
    (r : StickerPrice.StickerPriceResult)
    (h : StickerPrice.calculate e g pe cp a = Except.ok r) :
    r.sticker_price =
      e * (1 + StickerPrice.usedGrowth g a) ^ StickerPrice.PROJECTION_YEARS *
        StickerPrice.futurePE (StickerPrice.usedGrowth g a) pe /
        StickerPrice.discount_factor
    ∧ r.future_pe = StickerPrice.futurePE (StickerPrice.usedGrowth g a) pe := by
  cases cp with
  | none =>
    simp only [StickerPrice.calculate] at h
    injection h with h2
    subst h2
    exact ⟨rfl, rfl⟩
  | some c =>
    simp only [StickerPrice.calculate] at h
    by_cases hc : 0 < c
    · rw [if_pos hc] at h
      by_cases hz : e * (1 + StickerPrice.usedGrowth g a) ^ StickerPrice.PROJECTION_YEARS *
          StickerPrice.futurePE (StickerPrice.usedGrowth g a) pe /
          StickerPrice.discount_factor = 0
      · rw [if_pos hz] at h
        simp at h
      · rw [if_neg hz] at h
        injection h with h2
        subst h2
        exact ⟨rfl, rfl⟩
    · rw [if_neg hc] at h
      injection h with h2
      subst h2
      exact ⟨rfl, rfl⟩

/-- Claim C6 counterexample: increasing `historical_pe` below the
growth-implied cap does *not* always strictly increase the sticker price —
with `historical_pe` raised from 3 to 4 (both under the cap of 30) the
`[5, 50]` clamp maps both to a future P/E of 5 and the sticker price is
unchanged. -/
theorem c6_pe_monotonicity_cex :
    (StickerPrice.calculate 1 (15/100) 3 none none).toOption.map
        StickerPrice.StickerPriceResult.sticker_price =
      (StickerPrice.calculate 1 (15/100) 4 none none).toOption.map
        StickerPrice.StickerPriceResult.sticker_price
    ∧ (3:ℚ) < 4
    ∧ (4:ℚ) <
        StickerPrice.usedGrowth (15/100) none * 100 * StickerPrice.DEFAULT_PE_MULTIPLE := by
  refine ⟨?_, by norm_num, ?_⟩
  · norm_num [StickerPrice.calculate, StickerPrice.usedGrowth, StickerPrice.futurePE,
      StickerPrice.MIN_GROWTH_RATE, StickerPrice.MAX_GROWTH_RATE,
      StickerPrice.DEFAULT_PE_MULTIPLE, StickerPrice.PROJECTION_YEARS,
      StickerPrice.MOS_DISCOUNT, StickerPrice.discount_factor,
      StickerPrice.REQUIRED_RETURN, Except.toOption]
  · norm_num [StickerPrice.usedGrowth, StickerPrice.MIN_GROWTH_RATE,
      StickerPrice.MAX_GROWTH_RATE, StickerPrice.DEFAULT_PE_MULTIPLE]

/-- Claim C6 as amended: with all else fixed, strictly increasing
`current_eps` strictly increases the sticker price (for any inputs);
strictly increasing `historical_pe` strictly increases the sticker price
provided `current_eps > 0` and the P/E values stay inside the clamp
(`5 ≤ pe`) and below the growth-implied cap; and every computed
`future_pe` lies in `[5, 50]`. -/
theorem c6_sticker_monotonicity :
    (∀ (g pe : ℚ) (cp a : Option ℚ) (e1 e2 : ℚ)
      (r1 r2 : StickerPrice.StickerPriceResult), e1 < e2 →
      StickerPrice.calculate e1 g pe cp a = Except.ok r1 →
      StickerPrice.calculate e2 g pe cp a = Except.ok r2 →
      r1.sticker_price < r2.sticker_price)
    ∧ (∀ (e g : ℚ) (cp a : Option ℚ) (pe1 pe2 : ℚ)
      (r1 r2 : StickerPrice.StickerPriceResult), 0 < e → 5 ≤ pe1 → pe1 < pe2 →
      pe2 < StickerPrice.usedGrowth g a * 100 * StickerPrice.DEFAULT_PE_MULTIPLE →
      StickerPrice.calculate e g pe1 cp a = Except.ok r1 →
      StickerPrice.calculate e g pe2 cp a = Except.ok r2 →
      r1.sticker_price < r2.sticker_price)
    ∧ (∀ (e g pe : ℚ) (cp a : Option ℚ) (r : StickerPrice.StickerPriceResult),
      StickerPrice.calculate e g pe cp a = Except.ok r →
      5 ≤ r.future_pe ∧ r.future_pe ≤ 50) := by
  have hD : (0:ℚ) < StickerPrice.discount_factor := by
    norm_num [StickerPrice.discount_factor, StickerPrice.REQUIRED_RETURN]
  refine ⟨?_, ?_, ?_⟩
  · intro g pe cp a e1 e2 r1 r2 h12 h1 h2
    obtain ⟨hs1, -⟩ := calculate_ok_fields e1 g pe cp a r1 h1
    obtain ⟨hs2, -⟩ := calculate_ok_fields e2 g pe cp a r2 h2
    rw [hs1, hs2]
    have hu := (usedGrowth_bounds g a).1
    have hA : (0:ℚ) < (1 + StickerPrice.usedGrowth g a) ^ StickerPrice.PROJECTION_YEARS := by
      apply pow_pos
      norm_num [StickerPrice.MIN_GROWTH_RATE] at hu
      linarith
    have hP : (0:ℚ) < StickerPrice.futurePE (StickerPrice.usedGrowth g a) pe :=
      lt_of_lt_of_le (by norm_num) (futurePE_bounds _ _).1
    rw [div_lt_div_right hD]
    exact mul_lt_mul_of_pos_right (mul_lt_mul_of_pos_right h12 hA) hP
  · intro e g cp a pe1 pe2 r1 r2 he h5 h12 hcap h1 h2
    obtain ⟨hs1, -⟩ := calculate_ok_fields e g pe1 cp a r1 h1
    obtain ⟨hs2, -⟩ := calculate_ok_fields e g pe2 cp a r2 h2
    rw [hs1, hs2]
    have hub := (usedGrowth_bounds g a).2
    rw [futurePE_eq_of_below_cap h5 (h12.trans hcap) hub,
      futurePE_eq_of_below_cap (h5.trans h12.le) hcap hub]
    have hu := (usedGrowth_bounds g a).1
    have hA : (0:ℚ) < (1 + StickerPrice.usedGrowth g a) ^ StickerPrice.PROJECTION_YEARS := by
      apply pow_pos
      norm_num [StickerPrice.MIN_GROWTH_RATE] at hu
      linarith
    rw [div_lt_div_right hD]
    exact mul_lt_mul_of_pos_left h12 (mul_pos he hA)
  · intro e g pe cp a r h
    obtain ⟨-, hf⟩ := calculate_ok_fields e g pe cp a r h
    rw [hf]
    exact futurePE_bounds _ _

/-- Witness for C6 at `g = 0.1`: EPS 1 < 2 strictly increases the sticker
price, P/E 10 < 12 (both in `[5, cap)` with cap 20) strictly increases it,
and the future P/E lies in `[5, 50]`. -/
theorem c6_sticker_monotonicity_witness :
    ((1:ℚ) * (1 + StickerPrice.usedGrowth (1/10) none) ^ StickerPrice.PROJECTION_YEARS *
        StickerPrice.futurePE (StickerPrice.usedGrowth (1/10) none) 10 /
        StickerPrice.discount_factor <
      (2:ℚ) * (1 + StickerPrice.usedGrowth (1/10) none) ^ StickerPrice.PROJECTION_YEARS *
        StickerPrice.futurePE (StickerPrice.usedGrowth (1/10) none) 10 /
        StickerPrice.discount_factor)
    ∧ ((1:ℚ) * (1 + StickerPrice.usedGrowth (1/10) none) ^ StickerPrice.PROJECTION_YEARS *
        StickerPrice.futurePE (StickerPrice.usedGrowth (1/10) none) 10 /
        StickerPrice.discount_factor <
      (1:ℚ) * (1 + StickerPrice.usedGrowth (1/10) none) ^ StickerPrice.PROJECTION_YEARS *
        StickerPrice.futurePE (StickerPrice.usedGrowth (1/10) none) 12 /
        StickerPrice.discount_factor)
    ∧ 5 ≤ StickerPrice.futurePE (StickerPrice.usedGrowth (1/10) none) 10
    ∧ StickerPrice.futurePE (StickerPrice.usedGrowth (1/10) none) 10 ≤ 50 :=
  ⟨c6_sticker_monotonicity.1 (1/10) 10 none none 1 2
      { current_eps := 1, eps_growth_rate := 1/10,
        used_growth_rate := StickerPrice.usedGrowth (1/10) none, historical_pe := 10,
        future_eps := 1 * (1 + StickerPrice.usedGrowth (1/10) none) ^
          StickerPrice.PROJECTION_YEARS,
        future_pe := StickerPrice.futurePE (StickerPrice.usedGrowth (1/10) none) 10,
        future_price := 1 * (1 + StickerPrice.usedGrowth (1/10) none) ^
          StickerPrice.PROJECTION_YEARS *
          StickerPrice.futurePE (StickerPrice.usedGrowth (1/10) none) 10,
        sticker_price := 1 * (1 + StickerPrice.usedGrowth (1/10) none) ^
          StickerPrice.PROJECTION_YEARS *
          StickerPrice.futurePE (StickerPrice.usedGrowth (1/10) none) 10 /
          StickerPrice.discount_factor,
        margin_of_safety := 1 * (1 + StickerPrice.usedGrowth (1/10) none) ^
          StickerPrice.PROJECTION_YEARS *
          StickerPrice.futurePE (StickerPrice.usedGrowth (1/10) none) 10 /
          StickerPrice.discount_factor * StickerPrice.MOS_DISCOUNT }
      { current_eps := 2, eps_growth_rate := 1/10,
        used_growth_rate := StickerPrice.usedGrowth (1/10) none, historical_pe := 10,
        future_eps := 2 * (1 + StickerPrice.usedGrowth (1/10) none) ^
          StickerPrice.PROJECTION_YEARS,
        future_pe := StickerPrice.futurePE (StickerPrice.usedGrowth (1/10) none) 10,
        future_price := 2 * (1 + StickerPrice.usedGrowth (1/10) none) ^
          StickerPrice.PROJECTION_YEARS *
          StickerPrice.futurePE (StickerPrice.usedGrowth (1/10) none) 10,
        sticker_price := 2 * (1 + StickerPrice.usedGrowth (1/10) none) ^
          StickerPrice.PROJECTION_YEARS *
          StickerPrice.futurePE (StickerPrice.usedGrowth (1/10) none) 10 /
          StickerPrice.discount_factor,
        margin_of_safety := 2 * (1 + StickerPrice.usedGrowth (1/10) none) ^
          StickerPrice.PROJECTION_YEARS *
          StickerPrice.futurePE (StickerPrice.usedGrowth (1/10) none) 10 /
          StickerPrice.discount_factor * StickerPrice.MOS_DISCOUNT }
      (by norm_num) rfl rfl,
   c6_sticker_monotonicity.2.1 1 (1/10) none none 10 12
      { current_eps := 1, eps_growth_rate := 1/10,
        used_growth_rate := StickerPrice.usedGrowth (1/10) none, historical_pe := 10,
        future_eps := 1 * (1 + StickerPrice.usedGrowth (1/10) none) ^
          StickerPrice.PROJECTION_YEARS,
        future_pe := StickerPrice.futurePE (StickerPrice.usedGrowth (1/10) none) 10,
        future_price := 1 * (1 + StickerPrice.usedGrowth (1/10) none) ^
          StickerPrice.PROJECTION_YEARS *
          StickerPrice.futurePE (StickerPrice.usedGrowth (1/10) none) 10,
        sticker_price := 1 * (1 + StickerPrice.usedGrowth (1/10) none) ^
          StickerPrice.PROJECTION_YEARS *
          StickerPrice.futurePE (StickerPrice.usedGrowth (1/10) none) 10 /
          StickerPrice.discount_factor,
        margin_of_safety := 1 * (1 + StickerPrice.usedGrowth (1/10) none) ^
          StickerPrice.PROJECTION_YEARS *
          StickerPrice.futurePE (StickerPrice.usedGrowth (1/10) none) 10 /
          StickerPrice.discount_factor * StickerPrice.MOS_DISCOUNT }
      { current_eps := 1, eps_growth_rate := 1/10,
        used_growth_rate := StickerPrice.usedGrowth (1/10) none, historical_pe := 12,
        future_eps := 1 * (1 + StickerPrice.usedGrowth (1/10) none) ^
          StickerPrice.PROJECTION_YEARS,
        future_pe := StickerPrice.futurePE (StickerPrice.usedGrowth (1/10) none) 12,
        future_price := 1 * (1 + StickerPrice.usedGrowth (1/10) none) ^
          StickerPrice.PROJECTION_YEARS *
          StickerPrice.futurePE (StickerPrice.usedGrowth (1/10) none) 12,
        sticker_price := 1 * (1 + StickerPrice.usedGrowth (1/10) none) ^
          StickerPrice.PROJECTION_YEARS *
          StickerPrice.futurePE (StickerPrice.usedGrowth (1/10) none) 12 /
          StickerPrice.discount_factor,
        margin_of_safety := 1 * (1 + StickerPrice.usedGrowth (1/10) none) ^
          StickerPrice.PROJECTION_YEARS *
          StickerPrice.futurePE (StickerPrice.usedGrowth (1/10) none) 12 /
          StickerPrice.discount_factor * StickerPrice.MOS_DISCOUNT }
      (by norm_num) (by norm_num)
      (by norm_num)
      (by norm_num [StickerPrice.usedGrowth, StickerPrice.MIN_GROWTH_RATE,
        StickerPrice.MAX_GROWTH_RATE, StickerPrice.DEFAULT_PE_MULTIPLE])
      rfl rfl,
   c6_sticker_monotonicity.2.2 1 (1/10) 10 none none
      { current_eps := 1, eps_growth_rate := 1/10,
        used_growth_rate := StickerPrice.usedGrowth (1/10) none, historical_pe := 10,
        future_eps := 1 * (1 + StickerPrice.usedGrowth (1/10) none) ^
          StickerPrice.PROJECTION_YEARS,
        future_pe := StickerPrice.futurePE (StickerPrice.usedGrowth (1/10) none) 10,
        future_price := 1 * (1 + StickerPrice.usedGrowth (1/10) none) ^
          StickerPrice.PROJECTION_YEARS *
          StickerPrice.futurePE (StickerPrice.usedGrowth (1/10) none) 10,
        sticker_price := 1 * (1 + StickerPrice.usedGrowth (1/10) none) ^
          StickerPrice.PROJECTION_YEARS *
          StickerPrice.futurePE (StickerPrice.usedGrowth (1/10) none) 10 /
          StickerPrice.discount_factor,
        margin_of_safety := 1 * (1 + StickerPrice.usedGrowth (1/10) none) ^
          StickerPrice.PROJECTION_YEARS *
          StickerPrice.futurePE (StickerPrice.usedGrowth (1/10) none) 10 /
          StickerPrice.discount_factor * StickerPrice.MOS_DISCOUNT }
      rfl⟩

end DSE
